import Mathlib

/-
Verification development for the winutils chmod emulation (src/winutils/chmod.c).

The pure core of the program is shallowly embedded below:
  - the CHMOD_WHO / CHMOD_OP / CHMOD_PERM constants and the MODE_CHANGE_ACTION record;
  - ComputeNewMode (mode computation for one change action) and the fold
    ConvertActionsToMask over an action list;
  - ParseOctalMode and the ParseMode state machine (octal and symbolic mode grammars);
  - the pre-parse portion of ParseCommandLineArguments and of the Chmod main routine,
    instrumented with an explicit trace of native calls;
  - GetWindowsAccessMask / GetWindowsDACLs (ACL synthesis), with the Windows access
    masks modelled as records of the logical right groups the code ORs together;
  - ChangeFileModeRecursively (the recursive tree walk), over an explicit filesystem
    tree, instrumented with the sequence of apply calls.

Machine integers (USHORT) are modelled as Nat; all values handled by the program fit
in 16 bits and the single place where complement occurs uses an explicit 16-bit mask.
-/

namespace WinutilsChmod

/-- Who selector for no class, from the CHMOD_WHO enum in chmod.c. -/
def CHMOD_WHO_NONE : Nat := 0

/-- Who selector bits for the other class (low octal digit). -/
def CHMOD_WHO_OTHER : Nat := 0o7

/-- Who selector bits for the group class (middle octal digit). -/
def CHMOD_WHO_GROUP : Nat := 0o70

/-- Who selector bits for the owner class (high octal digit). -/
def CHMOD_WHO_USER : Nat := 0o700

/-- Who selector covering all three classes. -/
def CHMOD_WHO_ALL : Nat := CHMOD_WHO_OTHER ||| CHMOD_WHO_GROUP ||| CHMOD_WHO_USER

/-- Operator tag CHMOD_OP_INVALID (first member of the CHMOD_OP enum). -/
def CHMOD_OP_INVALID : Nat := 0

/-- Operator tag for the plus operator. -/
def CHMOD_OP_PLUS : Nat := 1

/-- Operator tag for the minus operator. -/
def CHMOD_OP_MINUS : Nat := 2

/-- Operator tag for the set-equal operator. -/
def CHMOD_OP_EQUAL : Nat := 3

/-- Permission letter bit: none requested. -/
def CHMOD_PERM_NA : Nat := 0o0

/-- Permission letter bit for r. -/
def CHMOD_PERM_R : Nat := 0o1

/-- Permission letter bit for w. -/
def CHMOD_PERM_W : Nat := 0o2

/-- Permission letter bit for x. -/
def CHMOD_PERM_X : Nat := 0o4

/-- Permission letter bit for X (conditional execute). -/
def CHMOD_PERM_LX : Nat := 0o10

/-- Modelled from the spec: the UnixAclMask constants live in common.h, which is not
under src.  The spec describes the permission state as a 9-bit rwxrwxrwx mode (owner
in the high octal digit, matching the CHMOD_WHO selectors of chmod.c) with an
out-of-band is-directory flag; the flag is the next bit above the 9 permission bits. -/
def UX_DIRECTORY : Nat := 0o1000

/-- Modelled from the spec: owner read bit of the 9-bit mode (common.h is not under src). -/
def UX_U_READ : Nat := 0o400

/-- Modelled from the spec: owner write bit of the 9-bit mode. -/
def UX_U_WRITE : Nat := 0o200

/-- Modelled from the spec: owner execute bit of the 9-bit mode. -/
def UX_U_EXECUTE : Nat := 0o100

/-- Modelled from the spec: group read bit of the 9-bit mode. -/
def UX_G_READ : Nat := 0o40

/-- Modelled from the spec: group write bit of the 9-bit mode. -/
def UX_G_WRITE : Nat := 0o20

/-- Modelled from the spec: group execute bit of the 9-bit mode. -/
def UX_G_EXECUTE : Nat := 0o10

/-- Modelled from the spec: other read bit of the 9-bit mode. -/
def UX_O_READ : Nat := 0o4

/-- Modelled from the spec: other write bit of the 9-bit mode. -/
def UX_O_WRITE : Nat := 0o2

/-- Modelled from the spec: other execute bit of the 9-bit mode. -/
def UX_O_EXECUTE : Nat := 0o1

/-- One mode change action, mirroring struct MODE_CHANGE_ACTION of chmod.c (the
next_action pointer becomes list structure). -/
structure MODE_CHANGE_ACTION where
  who : Nat
  op : Nat
  perm : Nat
  ref : Nat
deriving DecidableEq

/-- Initial value of a mode change action (INIT_MODE_CHANGE_ACTION in chmod.c). -/
def INIT_MODE_CHANGE_ACTION : MODE_CHANGE_ACTION :=
  ⟨CHMOD_WHO_NONE, CHMOD_OP_INVALID, CHMOD_PERM_NA, CHMOD_WHO_NONE⟩

/-- Static constant readMask of ComputeNewMode. -/
def readMask : Nat := 0o444

/-- Static constant writeMask of ComputeNewMode. -/
def writeMask : Nat := 0o222

/-- Static constant exeMask of ComputeNewMode. -/
def exeMask : Nat := 0o111

/-- Mask construction phase of ComputeNewMode (chmod.c lines 610 to 635): the literal
rwxX contribution accumulated by the if chain, followed by the reference-class
contribution mask OR oldMode AND ref.  The OR accumulation into the local variable
mask is written as one OR of the individual contributions. -/
def chmodPermMask (oldMode perm ref : Nat) : Nat :=
  (if perm ≠ CHMOD_PERM_NA then
    (if perm &&& CHMOD_PERM_R = CHMOD_PERM_R then readMask else 0) |||
    (if perm &&& CHMOD_PERM_W = CHMOD_PERM_W then writeMask else 0) |||
    (if perm &&& CHMOD_PERM_X = CHMOD_PERM_X then exeMask else 0) |||
    (if perm &&& CHMOD_PERM_LX = CHMOD_PERM_LX ∧
        (oldMode &&& UX_DIRECTORY = UX_DIRECTORY ∨ oldMode &&& exeMask ≠ 0)
      then exeMask else 0)
   else 0) ||| (oldMode &&& ref)

/-- ComputeNewMode of chmod.c (with NDEBUG semantics, i.e. the two entry asserts
ignored; see ComputeNewModeAssertRef below for the ref assert).  All USHORT values
are Nat; the minus branch complements within 16 bits, as the C code does on USHORT. -/
def ComputeNewMode (oldMode who op perm ref : Nat) : Nat :=
  if perm = CHMOD_PERM_NA ∧ ref = CHMOD_WHO_NONE then
    oldMode
  else
    let mask := chmodPermMask oldMode perm ref &&& who
    if op = CHMOD_OP_EQUAL then mask
    else if op = CHMOD_OP_MINUS then oldMode &&& (0xFFFF ^^^ mask)
    else if op = CHMOD_OP_PLUS then oldMode ||| mask
    else 0

/-- Entry assertion of ComputeNewMode on its ref argument (chmod.c lines 602 to 603):
assert(ref == CHMOD_WHO_GROUP || ref == CHMOD_WHO_USER || ref == CHMOD_WHO_OTHER). -/
def ComputeNewModeAssertRef (ref : Nat) : Bool :=
  decide (ref = CHMOD_WHO_GROUP) || decide (ref = CHMOD_WHO_USER) ||
    decide (ref = CHMOD_WHO_OTHER)

/-- Pure fold of ConvertActionsToMask (chmod.c lines 702 to 705): the initial mode
(read from the native metadata and permission queries, which are external
collaborators; it carries the UX_DIRECTORY flag when the object is a directory) folded
through ComputeNewMode over the action list in order. -/
def ConvertActionsToMask (mode0 : Nat) (actions : List MODE_CHANGE_ACTION) : Nat :=
  actions.foldl (fun m a => ComputeNewMode m a.who a.op a.perm a.ref) mode0

/-- Test for an octal digit character, as in the digit loop of ParseOctalMode (the
wide characters L0 and L7 have code points 48 and 55 and the C comparison is on code
points). -/
def isOctalDigit (c : Char) : Bool := decide (48 ≤ c.toNat) && decide (c.toNat ≤ 55)

/-- Accumulating base-8 conversion of a digit string, as wcstol performs on a string
of octal digits (48 is the code point of the digit zero). -/
def octalValueAux : List Char → Nat → Nat
  | [], acc => acc
  | c :: cs, acc => octalValueAux cs (8 * acc + (c.toNat - 48))

/-- Numeric value of a string of octal digits. -/
def octalStringValue (cs : List Char) : Nat := octalValueAux cs 0

/-- ParseOctalMode of chmod.c: the string must have length 3 or 4 and consist of
octal digits; for length 4 the leading character is skipped before conversion
(wcstol(tsMask + 1)); the converted value is rejected above 0x777 (the code compares
against hexadecimal 0x777, not octal 0777).  The none result models returning FALSE. -/
def ParseOctalMode (s : String) : Option Nat :=
  let cs := s.data
  if cs.length = 3 ∨ cs.length = 4 then
    if cs.all isOctalDigit then
      let l := if cs.length = 4 then octalStringValue cs.tail else octalStringValue cs
      if l ≤ 0x777 then some l else none
    else none
  else none

/-- States of the ParseMode state machine (enum __PARSE_MODE_ACTION_STATE). -/
inductive ParseModeActionState where
  | WHO
  | OP
  | PERM
  | REF
  | END
deriving DecidableEq

/-- Finalization of the current action at the END state (chmod.c line 897): a missing
who selector defaults to all at the moment the action is appended. -/
def endFinalize (a : MODE_CHANGE_ACTION) : MODE_CHANGE_ACTION :=
  if a.who = CHMOD_WHO_NONE then { a with who := CHMOD_WHO_ALL } else a

/-- Loop of ParseMode (chmod.c lines 781 to 924).  The C loop walks an index i up to
and including the terminating NUL; here the remaining characters are a list and the
empty list is the NUL sentinel.  The loop sometimes changes state without consuming a
character, so a step-count fuel (first argument) makes the recursion structural; fuel
exhaustion yields none and ParseMode supplies fuel exceeding the maximal possible
number of steps (at most five per consumed position). -/
def parseModeLoop : Nat → List Char → ParseModeActionState → MODE_CHANGE_ACTION →
    List MODE_CHANGE_ACTION → Option (List MODE_CHANGE_ACTION)
  | 0, _, _, _, _ => none
  | fuel + 1, rest, state, action, acc =>
    match state with
    | ParseModeActionState.WHO =>
      match rest with
      | c :: cs =>
        if c = 'a' then
          parseModeLoop fuel cs ParseModeActionState.WHO
            { action with who := action.who ||| CHMOD_WHO_ALL } acc
        else if c = 'u' then
          parseModeLoop fuel cs ParseModeActionState.WHO
            { action with who := action.who ||| CHMOD_WHO_USER } acc
        else if c = 'g' then
          parseModeLoop fuel cs ParseModeActionState.WHO
            { action with who := action.who ||| CHMOD_WHO_GROUP } acc
        else if c = 'o' then
          parseModeLoop fuel cs ParseModeActionState.WHO
            { action with who := action.who ||| CHMOD_WHO_OTHER } acc
        else parseModeLoop fuel rest ParseModeActionState.OP action acc
      | [] => parseModeLoop fuel [] ParseModeActionState.OP action acc
    | ParseModeActionState.OP =>
      match rest with
      | c :: cs =>
        if c = '+' then
          parseModeLoop fuel cs ParseModeActionState.PERM
            { action with op := CHMOD_OP_PLUS } acc
        else if c = '-' then
          parseModeLoop fuel cs ParseModeActionState.PERM
            { action with op := CHMOD_OP_MINUS } acc
        else if c = '=' then
          parseModeLoop fuel cs ParseModeActionState.PERM
            { action with op := CHMOD_OP_EQUAL } acc
        else none
      | [] => none
    | ParseModeActionState.PERM =>
      match rest with
      | c :: cs =>
        if c = 'r' then
          parseModeLoop fuel cs ParseModeActionState.PERM
            { action with perm := action.perm ||| CHMOD_PERM_R } acc
        else if c = 'w' then
          parseModeLoop fuel cs ParseModeActionState.PERM
            { action with perm := action.perm ||| CHMOD_PERM_W } acc
        else if c = 'x' then
          parseModeLoop fuel cs ParseModeActionState.PERM
            { action with perm := action.perm ||| CHMOD_PERM_X } acc
        else if c = 'X' then
          parseModeLoop fuel cs ParseModeActionState.PERM
            { action with perm := action.perm ||| CHMOD_PERM_LX } acc
        else parseModeLoop fuel rest ParseModeActionState.REF action acc
      | [] => parseModeLoop fuel [] ParseModeActionState.REF action acc
    | ParseModeActionState.REF =>
      match rest with
      | c :: cs =>
        if c = 'u' then
          parseModeLoop fuel cs ParseModeActionState.REF
            { action with ref := CHMOD_WHO_USER } acc
        else if c = 'g' then
          parseModeLoop fuel cs ParseModeActionState.REF
            { action with ref := CHMOD_WHO_GROUP } acc
        else if c = 'o' then
          parseModeLoop fuel cs ParseModeActionState.REF
            { action with ref := CHMOD_WHO_OTHER } acc
        else parseModeLoop fuel rest ParseModeActionState.END action acc
      | [] => parseModeLoop fuel [] ParseModeActionState.END action acc
    | ParseModeActionState.END =>
      match rest with
      | [] => some (acc ++ [endFinalize action])
      | c :: cs =>
        if c = ',' then
          parseModeLoop fuel cs ParseModeActionState.WHO
            INIT_MODE_CHANGE_ACTION (acc ++ [endFinalize action])
        else if c = '+' ∨ c = '-' ∨ c = '=' then
          parseModeLoop fuel (c :: cs) ParseModeActionState.WHO
            { INIT_MODE_CHANGE_ACTION with who := (endFinalize action).who }
            (acc ++ [endFinalize action])
        else none

/-- ParseMode of chmod.c: run the state machine from the WHO state with an initial
action and an empty output list.  The none result models returning FALSE. -/
def ParseMode (s : String) : Option (List MODE_CHANGE_ACTION) :=
  parseModeLoop (8 * (s.length + 2)) s.data ParseModeActionState.WHO
    INIT_MODE_CHANGE_ACTION []

/-- Mode-string resolution of ParseCommandLineArguments (chmod.c lines 526 to 535):
try the octal grammar first, fail over to the symbolic grammar, and fail (the
MalformedMode error) when both reject. -/
def ParseChmodMask (s : String) : Option (Nat ⊕ List MODE_CHANGE_ACTION) :=
  match ParseOctalMode s with
  | some m => some (Sum.inl m)
  | none =>
    match ParseMode s with
    | some actions => some (Sum.inr actions)
    | none => none

/-- Native calls observable from the argument-parsing phase and the start of the
Chmod main routine (the file-metadata query used for the -R decision, and the long
path conversion that precedes all security work). -/
inductive NativeCall where
  | getFileInformationByName (path : String)
  | convertToLongPath (path : String)
deriving DecidableEq

/-- ParseCommandLineArguments of chmod.c (lines 479 to 536), with the native
file-metadata query abstracted to the oracle fsIsDir (none models a failing query).
The first component is the list of native calls performed during argument parsing, in
order; all of them precede the mode-string parse, which is the last step of the
function.  The second component is the parsed result (recursive flag, octal mask or
action list, path), or none for FALSE. -/
def ParseCommandLineArguments (argv : List String) (fsIsDir : String → Option Bool) :
    List NativeCall × Option (Bool × (Nat ⊕ List MODE_CHANGE_ACTION) × String) :=
  match argv with
  | [_, maskString, path] =>
    (match ParseChmodMask maskString with
     | some r => ([], some (false, r, path))
     | none => ([], none))
  | [_, flag, maskString, path] =>
    if flag = "-R" then
      match fsIsDir path with
      | none => ([NativeCall.getFileInformationByName path], none)
      | some isDir =>
        (match ParseChmodMask maskString with
         | some r => ([NativeCall.getFileInformationByName path], some (isDir, r, path))
         | none => ([NativeCall.getFileInformationByName path], none))
    else ([], none)
  | _ => ([], none)

/-- Front of the Chmod main routine (chmod.c lines 112 to 166): parse the arguments;
on failure report and stop with no further native call; on success the next native
call is ConvertToLongPath, after which the apply pipeline runs (abstracted here).
The Bool records whether the native phase after argument parsing was reached. -/
def ChmodMain (argv : List String) (fsIsDir : String → Option Bool) :
    List NativeCall × Bool :=
  match ParseCommandLineArguments argv fsIsDir with
  | (calls, none) => (calls, false)
  | (calls, some (_, _, path)) => (calls ++ [NativeCall.convertToLongPath path], true)

/-- Modelled from the spec: a Windows ACCESS_MASK as the set of logical right groups
that GetWindowsAccessMask ORs together.  The WinMasks table lives in libwinutils.c,
which is not under src; its entries for WIN_READ, WIN_WRITE and WIN_EXECUTE are
nonzero and pairwise disjoint bit masks, WIN_ALL is the baseline (synchronize plus
read-permissions) and WIN_OWNER_SE the extra owner rights, and FILE_GENERIC_READ is
the distinct generic read mask the code ORs into the group allow entry.  Each field
records whether the corresponding group is present. -/
structure WinAccessMask where
  read : Bool
  write : Bool
  execute : Bool
  ownerSE : Bool
  base : Bool
  genericRead : Bool
deriving DecidableEq

/-- Empty access mask (the DWORD 0). -/
def winMaskZero : WinAccessMask := ⟨false, false, false, false, false, false⟩

/-- Bitwise OR of two access masks. -/
def winMaskOr (a b : WinAccessMask) : WinAccessMask :=
  ⟨a.read || b.read, a.write || b.write, a.execute || b.execute,
   a.ownerSE || b.ownerSE, a.base || b.base, a.genericRead || b.genericRead⟩

/-- Nonzero test on an access mask. -/
def winMaskNonzero (a : WinAccessMask) : Bool :=
  a.read || a.write || a.execute || a.ownerSE || a.base || a.genericRead

/-- WinMasks[WIN_READ] as an access mask. -/
def WIN_READ_MASK : WinAccessMask := ⟨true, false, false, false, false, false⟩

/-- WinMasks[WIN_WRITE] as an access mask. -/
def WIN_WRITE_MASK : WinAccessMask := ⟨false, true, false, false, false, false⟩

/-- WinMasks[WIN_EXECUTE] as an access mask. -/
def WIN_EXECUTE_MASK : WinAccessMask := ⟨false, false, true, false, false, false⟩

/-- WinMasks[WIN_OWNER_SE] as an access mask. -/
def WIN_OWNER_SE_MASK : WinAccessMask := ⟨false, false, false, true, false, false⟩

/-- WinMasks[WIN_ALL] (the baseline rights) as an access mask. -/
def WIN_ALL_MASK : WinAccessMask := ⟨false, false, false, false, true, false⟩

/-- FILE_GENERIC_READ as an access mask (used only by the group allow entry). -/
def FILE_GENERIC_READ_MASK : WinAccessMask := ⟨false, false, false, false, false, true⟩

/-- GetWindowsAccessMask of chmod.c (lines 1001 to 1070): the five access masks
(owner allow, owner deny, group allow, group deny, other allow) derived from the
9-bit Unix mask.  Each OR-assignment chain is written as an OR of conditional
contributions in the order of the source. -/
def GetWindowsAccessMask (unixMask : Nat) :
    WinAccessMask × WinAccessMask × WinAccessMask × WinAccessMask × WinAccessMask :=
  let userAllow :=
    winMaskOr (winMaskOr WIN_ALL_MASK WIN_OWNER_SE_MASK)
      (winMaskOr
        (winMaskOr
          (if unixMask &&& UX_U_READ = UX_U_READ then WIN_READ_MASK else winMaskZero)
          (if unixMask &&& UX_U_WRITE = UX_U_WRITE then WIN_WRITE_MASK else winMaskZero))
        (if unixMask &&& UX_U_EXECUTE = UX_U_EXECUTE then WIN_EXECUTE_MASK else winMaskZero))
  let userDeny :=
    winMaskOr
      (winMaskOr
        (if unixMask &&& UX_U_READ ≠ UX_U_READ ∧
            (unixMask &&& UX_G_READ = UX_G_READ ∨ unixMask &&& UX_O_READ = UX_O_READ)
          then WIN_READ_MASK else winMaskZero)
        (if unixMask &&& UX_U_WRITE ≠ UX_U_WRITE ∧
            (unixMask &&& UX_G_WRITE = UX_G_WRITE ∨ unixMask &&& UX_O_WRITE = UX_O_WRITE)
          then WIN_WRITE_MASK else winMaskZero))
      (if unixMask &&& UX_U_EXECUTE ≠ UX_U_EXECUTE ∧
          (unixMask &&& UX_G_EXECUTE = UX_G_EXECUTE ∨
            unixMask &&& UX_O_EXECUTE = UX_O_EXECUTE)
        then WIN_EXECUTE_MASK else winMaskZero)
  let groupAllow :=
    winMaskOr WIN_ALL_MASK
      (winMaskOr
        (winMaskOr
          (if unixMask &&& UX_G_READ = UX_G_READ then FILE_GENERIC_READ_MASK else winMaskZero)
          (if unixMask &&& UX_G_WRITE = UX_G_WRITE then WIN_WRITE_MASK else winMaskZero))
        (if unixMask &&& UX_G_EXECUTE = UX_G_EXECUTE then WIN_EXECUTE_MASK else winMaskZero))
  let groupDeny :=
    winMaskOr
      (winMaskOr
        (if unixMask &&& UX_G_READ ≠ UX_G_READ ∧ unixMask &&& UX_O_READ = UX_O_READ
          then WIN_READ_MASK else winMaskZero)
        (if unixMask &&& UX_G_WRITE ≠ UX_G_WRITE ∧ unixMask &&& UX_O_WRITE = UX_O_WRITE
          then WIN_WRITE_MASK else winMaskZero))
      (if unixMask &&& UX_G_EXECUTE ≠ UX_G_EXECUTE ∧
          unixMask &&& UX_O_EXECUTE = UX_O_EXECUTE
        then WIN_EXECUTE_MASK else winMaskZero)
  let otherAllow :=
    winMaskOr WIN_ALL_MASK
      (winMaskOr
        (winMaskOr
          (if unixMask &&& UX_O_READ = UX_O_READ then WIN_READ_MASK else winMaskZero)
          (if unixMask &&& UX_O_WRITE = UX_O_WRITE then WIN_WRITE_MASK else winMaskZero))
        (if unixMask &&& UX_O_EXECUTE = UX_O_EXECUTE then WIN_EXECUTE_MASK else winMaskZero))
  (userAllow, userDeny, groupAllow, groupDeny, otherAllow)

/-- Kind of an access control entry. -/
inductive AceKind where
  | accessAllowed
  | accessDenied
deriving DecidableEq

/-- Principal of an access control entry: the owner SID, the group SID, or the
well-known Everyone SID built inside GetWindowsDACLs. -/
inductive AcePrincipal where
  | owner
  | group
  | everyone
deriving DecidableEq

/-- One access control entry of the synthesized DACL. -/
structure ACE where
  kind : AceKind
  sid : AcePrincipal
  mask : WinAccessMask
deriving DecidableEq

/-- GetWindowsDACLs of chmod.c (lines 1085 to 1186): the ordered entry list produced
by the AddAccessDeniedAce / AddAccessAllowedAce sequence; a deny entry is added only
when its mask is nonzero.  Buffer sizing and the SID plumbing are not modelled. -/
def GetWindowsDACLs (unixMask : Nat) : List ACE :=
  let masks := GetWindowsAccessMask unixMask
  let userAllow := masks.1
  let userDeny := masks.2.1
  let groupAllow := masks.2.2.1
  let groupDeny := masks.2.2.2.1
  let otherAllow := masks.2.2.2.2
  (if winMaskNonzero userDeny then [ACE.mk AceKind.accessDenied AcePrincipal.owner userDeny]
   else []) ++
  [ACE.mk AceKind.accessAllowed AcePrincipal.owner userAllow] ++
  (if winMaskNonzero groupDeny then [ACE.mk AceKind.accessDenied AcePrincipal.group groupDeny]
   else []) ++
  [ACE.mk AceKind.accessAllowed AcePrincipal.group groupAllow] ++
  [ACE.mk AceKind.accessAllowed AcePrincipal.everyone otherAllow]

/-- Permission classes of the Unix mode, in spec vocabulary. -/
inductive PermClass where
  | owner
  | group
  | other
deriving DecidableEq, Fintype

/-- Rights of the Unix mode, in spec vocabulary. -/
inductive UnixRight where
  | read
  | write
  | execute
deriving DecidableEq, Fintype

/-- Mode bit of a class and right in the 9-bit mask. -/
def uxBit : PermClass → UnixRight → Nat
  | PermClass.owner, UnixRight.read => UX_U_READ
  | PermClass.owner, UnixRight.write => UX_U_WRITE
  | PermClass.owner, UnixRight.execute => UX_U_EXECUTE
  | PermClass.group, UnixRight.read => UX_G_READ
  | PermClass.group, UnixRight.write => UX_G_WRITE
  | PermClass.group, UnixRight.execute => UX_G_EXECUTE
  | PermClass.other, UnixRight.read => UX_O_READ
  | PermClass.other, UnixRight.write => UX_O_WRITE
  | PermClass.other, UnixRight.execute => UX_O_EXECUTE

/-- Statement that a class possesses a right in the mask. -/
def HasUnixRight (m : Nat) (c : PermClass) (r : UnixRight) : Prop :=
  m &&& uxBit c r = uxBit c r

/-- Classes broader than a given class, in the sense of the deny-entry law: group and
other are broader than owner, other is broader than group. -/
def broaderClasses : PermClass → List PermClass
  | PermClass.owner => [PermClass.group, PermClass.other]
  | PermClass.group => [PermClass.other]
  | PermClass.other => []

/-- Whether an access mask contains the Windows right group for a Unix right. -/
def winRightOf (a : WinAccessMask) : UnixRight → Bool
  | UnixRight.read => a.read
  | UnixRight.write => a.write
  | UnixRight.execute => a.execute

/-- Statement that the synthesized DACL for a mask contains a deny entry for the
given principal containing the given right. -/
def DaclDenies (m : Nat) (p : AcePrincipal) (r : UnixRight) : Prop :=
  ∃ e ∈ GetWindowsDACLs m, e.kind = AceKind.accessDenied ∧ e.sid = p ∧
    winRightOf e.mask r = true

instance (m : Nat) (c : PermClass) (r : UnixRight) : Decidable (HasUnixRight m c r) := by
  unfold HasUnixRight
  infer_instance

instance (m : Nat) (p : AcePrincipal) (r : UnixRight) : Decidable (DaclDenies m p r) := by
  unfold DaclDenies
  infer_instance

end WinutilsChmod

namespace WinutilsChmod

mutual
/-- Filesystem object for the recursive walk: a leaf or a container. -/
inductive FSNode where
  | file (name : String)
  | dir (name : String) (entries : FSList)
/-- Directory entry list as enumerated by FindFirstFile / FindNextFile (it may
contain the self and parent pseudo-entries, which carry the names dot and dotdot). -/
inductive FSList where
  | nil : FSList
  | cons (hd : FSNode) (tl : FSList) : FSList
end

/-- Name of a filesystem object (ffd.cFileName). -/
def nodeName : FSNode → String
  | FSNode.file n => n
  | FSNode.dir n _ => n

mutual
/-- ChangeFileModeRecursively of chmod.c (lines 205 to 312), with the actual mode
application abstracted to the oracle applyOk (the result of ChangeFileMode at a
path).  Returns the ordered list of paths at which ChangeFileMode was invoked,
and the overall success flag.  For a non-directory the mode is applied directly;
for a directory all children are processed first and the directory itself last,
and a failing child ends the walk at once. -/
def ChangeFileModeRecursively (applyOk : String → Bool) (path : String) :
    FSNode → List String × Bool
  | FSNode.file _ => ([path], applyOk path)
  | FSNode.dir _ entries =>
    match changeChildrenModes applyOk path entries with
    | (trace, false) => (trace, false)
    | (trace, true) => (trace ++ [path], applyOk path)
/-- Child loop of ChangeFileModeRecursively (the do/while over FindNextFile):
entries named dot or dotdot are skipped; each other entry is processed recursively at
path backslash name; the first failure ends the loop and is returned. -/
def changeChildrenModes (applyOk : String → Bool) (path : String) :
    FSList → List String × Bool
  | FSList.nil => ([], true)
  | FSList.cons c cs =>
    if nodeName c = "." ∨ nodeName c = ".." then
      changeChildrenModes applyOk path cs
    else
      match ChangeFileModeRecursively applyOk (path ++ "\\" ++ nodeName c) c with
      | (trace, false) => (trace, false)
      | (trace, true) =>
        match changeChildrenModes applyOk path cs with
        | (trace2, ok) => (trace ++ trace2, ok)
end

end WinutilsChmod

namespace WinutilsChmod

theorem backslash_length : ("\\" : String).length = 1 := rfl

theorem childPath_length (p q : String) :
    (p ++ "\\" ++ q).length = p.length + 1 + q.length := by
  rw [String.length_append, String.length_append, backslash_length]

theorem parseModeLoop_append :
    ∀ fuel cs st a acc out, parseModeLoop fuel cs st a acc = some out →
      ∃ t, t ≠ [] ∧ out = acc ++ t := by
  intro fuel
  induction fuel with
  | zero =>
    intro cs st a acc out h
    exact absurd h (by simp [parseModeLoop])
  | succ f ih =>
    intro cs st a acc out h
    cases st <;> cases cs <;> simp only [parseModeLoop] at h
    case WHO.nil => exact ih _ _ _ _ _ h
    case WHO.cons c cs =>
      repeat' split at h
      all_goals exact ih _ _ _ _ _ h
    case OP.nil => exact absurd h (by simp)
    case OP.cons c cs =>
      repeat' split at h
      all_goals first
        | exact ih _ _ _ _ _ h
        | exact absurd h (by simp)
    case PERM.nil => exact ih _ _ _ _ _ h
    case PERM.cons c cs =>
      repeat' split at h
      all_goals exact ih _ _ _ _ _ h
    case REF.nil => exact ih _ _ _ _ _ h
    case REF.cons c cs =>
      repeat' split at h
      all_goals exact ih _ _ _ _ _ h
    case END.nil =>
      exact ⟨[endFinalize a], by simp, (Option.some.inj h).symm⟩
    case END.cons c cs =>
      repeat' split at h
      all_goals first
        | exact absurd h (by simp)
        | (obtain ⟨t, ht, rfl⟩ := ih _ _ _ _ _ h
           exact ⟨endFinalize a :: t, by simp, by simp⟩)

/-- Claim C1. ComputeNewMode with the set-equal operator does not preserve the
permission bits of the classes outside the who selector: on old mode 0777, the
action u=r (who the owner class, literal read permission) yields 0400, zeroing the
group and other bits instead of leaving them at their old values. -/
theorem claim_C1 :
    ComputeNewMode 0o777 CHMOD_WHO_USER CHMOD_OP_EQUAL CHMOD_PERM_R CHMOD_WHO_NONE = 0o400
  ∧ 0o400 &&& (CHMOD_WHO_GROUP ||| CHMOD_WHO_OTHER) ≠
      0o777 &&& (CHMOD_WHO_GROUP ||| CHMOD_WHO_OTHER) := by
  decide

/-- Claim C2. Of the five end-to-end spec examples, four hold: u+x on 0644 gives
0744, go-w on 0666 gives 0644, a=r on 0777 gives 0444, and octal 0755 gives mask
0755.  The fifth fails: u=rwx,g=rx,o= gives 0050 (not 0750) on any current mode,
because the set-equal operator zeroes the bits outside who. -/
theorem claim_C2 :
    (ParseMode "u+x").map (ConvertActionsToMask 0o644) = some 0o744
  ∧ (ParseMode "go-w").map (ConvertActionsToMask 0o666) = some 0o644
  ∧ (ParseMode "a=r").map (ConvertActionsToMask 0o777) = some 0o444
  ∧ ParseOctalMode "0755" = some 0o755
  ∧ ParseChmodMask "0755" = some (Sum.inl 0o755)
  ∧ (ParseMode "u=rwx,g=rx,o=").map (ConvertActionsToMask 0o644) = some 0o050
  ∧ (ParseMode "u=rwx,g=rx,o=").map (ConvertActionsToMask 0o777) = some 0o050
  ∧ (0o050 : Nat) ≠ 0o750 := by
  decide

/-- Claim C3. ComputeNewMode does not replicate the referenced class bits across the
three classes: the mask construction for ref the group class on old mode 0640 yields
just the in-place group bits 0040 (not the replicated 0444), so the action u=g
(parsed with who the owner class and ref the group class) yields mode 0, the owner
class receiving nothing from the group class. -/
theorem claim_C3 :
    ParseMode "u=g" =
      some [⟨CHMOD_WHO_USER, CHMOD_OP_EQUAL, CHMOD_PERM_NA, CHMOD_WHO_GROUP⟩]
  ∧ chmodPermMask 0o640 CHMOD_PERM_NA CHMOD_WHO_GROUP = 0o040
  ∧ (0o040 : Nat) ≠ 0o444
  ∧ ComputeNewMode 0o640 CHMOD_WHO_USER CHMOD_OP_EQUAL CHMOD_PERM_NA CHMOD_WHO_GROUP = 0 := by
  decide

/-- Claim C10. The entry assertion of ComputeNewMode on ref fails for ref equal to
CHMOD_WHO_NONE; every action of a literal permission clause (such as u+r, and all
actions of the spec example u=rwx,g=rx,o=) reaches ComputeNewMode with ref equal to
CHMOD_WHO_NONE; and the code after the assertion handles that value (u+r on 0044
computes 0444). -/
theorem claim_C10 :
    ComputeNewModeAssertRef CHMOD_WHO_NONE = false
  ∧ ParseMode "u+r" =
      some [⟨CHMOD_WHO_USER, CHMOD_OP_PLUS, CHMOD_PERM_R, CHMOD_WHO_NONE⟩]
  ∧ (∀ acts, ParseMode "u=rwx,g=rx,o=" = some acts →
      ∀ a ∈ acts, a.ref = CHMOD_WHO_NONE ∧ ComputeNewModeAssertRef a.ref = false)
  ∧ ComputeNewMode 0o044 CHMOD_WHO_USER CHMOD_OP_PLUS CHMOD_PERM_R CHMOD_WHO_NONE = 0o444 := by
  refine ⟨by decide, by decide, ?_, by decide⟩
  intro acts h a ha
  have e : ParseMode "u=rwx,g=rx,o=" =
      some [⟨CHMOD_WHO_USER, CHMOD_OP_EQUAL, 0o7, CHMOD_WHO_NONE⟩,
        ⟨CHMOD_WHO_GROUP, CHMOD_OP_EQUAL, 0o5, CHMOD_WHO_NONE⟩,
        ⟨CHMOD_WHO_OTHER, CHMOD_OP_EQUAL, CHMOD_PERM_NA, CHMOD_WHO_NONE⟩] := by decide
  rw [e] at h
  cases Option.some.inj h
  fin_cases ha <;> exact ⟨rfl, by decide⟩

/-- Witness for claim C10 at the third action of the spec example. -/
theorem claim_C10_witness :
    (⟨CHMOD_WHO_OTHER, CHMOD_OP_EQUAL, CHMOD_PERM_NA, CHMOD_WHO_NONE⟩ :
        MODE_CHANGE_ACTION).ref = CHMOD_WHO_NONE
  ∧ ComputeNewModeAssertRef
      (⟨CHMOD_WHO_OTHER, CHMOD_OP_EQUAL, CHMOD_PERM_NA, CHMOD_WHO_NONE⟩ :
        MODE_CHANGE_ACTION).ref = false :=
  claim_C10.2.2.1
    [⟨CHMOD_WHO_USER, CHMOD_OP_EQUAL, 0o7, CHMOD_WHO_NONE⟩,
      ⟨CHMOD_WHO_GROUP, CHMOD_OP_EQUAL, 0o5, CHMOD_WHO_NONE⟩,
      ⟨CHMOD_WHO_OTHER, CHMOD_OP_EQUAL, CHMOD_PERM_NA, CHMOD_WHO_NONE⟩]
    (by decide) _ (by decide)

end WinutilsChmod

namespace WinutilsChmod

theorem chmodPermMask_LX (oldMode : Nat) :
    chmodPermMask oldMode CHMOD_PERM_LX CHMOD_WHO_NONE =
      if oldMode &&& UX_DIRECTORY = UX_DIRECTORY ∨ oldMode &&& exeMask ≠ 0
      then exeMask else 0 := by
  simp [chmodPermMask, CHMOD_PERM_LX, CHMOD_PERM_NA, CHMOD_PERM_R, CHMOD_PERM_W,
    CHMOD_PERM_X, CHMOD_WHO_NONE]

/-- Claim C5. The conditional-execute letter X contributes the execute triple to the
constructed mask (before the restriction to who) exactly when the old mode carries
the directory flag or some execute bit; consequently, with the plus operator, X on a
non-directory with no execute bit leaves the mode unchanged, and on a directory it
adds the execute triple restricted to who. -/
theorem claim_C5 :
    (∀ oldMode : Nat,
      chmodPermMask oldMode CHMOD_PERM_LX CHMOD_WHO_NONE =
        if oldMode &&& UX_DIRECTORY = UX_DIRECTORY ∨ oldMode &&& exeMask ≠ 0
        then exeMask else 0)
  ∧ (∀ oldMode who : Nat, oldMode &&& UX_DIRECTORY = 0 → oldMode &&& exeMask = 0 →
      ComputeNewMode oldMode who CHMOD_OP_PLUS CHMOD_PERM_LX CHMOD_WHO_NONE = oldMode)
  ∧ (∀ oldMode who : Nat, oldMode &&& UX_DIRECTORY = UX_DIRECTORY →
      ComputeNewMode oldMode who CHMOD_OP_PLUS CHMOD_PERM_LX CHMOD_WHO_NONE =
        oldMode ||| (exeMask &&& who)) := by
  refine ⟨chmodPermMask_LX, ?_, ?_⟩
  · intro oldMode who h1 h2
    have hm : chmodPermMask oldMode CHMOD_PERM_LX CHMOD_WHO_NONE = 0 := by
      rw [chmodPermMask_LX, if_neg]
      intro hc
      rcases hc with hc | hc
      · rw [h1] at hc
        exact absurd hc.symm (by decide)
      · exact hc h2
    simp only [CHMOD_PERM_LX, CHMOD_WHO_NONE] at hm
    simp [ComputeNewMode, hm, CHMOD_PERM_LX, CHMOD_PERM_NA, CHMOD_WHO_NONE,
      CHMOD_OP_PLUS, CHMOD_OP_EQUAL, CHMOD_OP_MINUS]
  · intro oldMode who h1
    have hm : chmodPermMask oldMode CHMOD_PERM_LX CHMOD_WHO_NONE = exeMask := by
      rw [chmodPermMask_LX, if_pos (Or.inl h1)]
    simp only [CHMOD_PERM_LX, CHMOD_WHO_NONE] at hm
    simp [ComputeNewMode, hm, CHMOD_PERM_LX, CHMOD_PERM_NA, CHMOD_WHO_NONE,
      CHMOD_OP_PLUS, CHMOD_OP_EQUAL, CHMOD_OP_MINUS]

/-- Witness for claim C5: a+X on non-executable non-directory 0644 changes nothing;
a+X on a directory with mode 0644 adds execute everywhere. -/
theorem claim_C5_witness :
    ComputeNewMode 0o644 CHMOD_WHO_ALL CHMOD_OP_PLUS CHMOD_PERM_LX CHMOD_WHO_NONE = 0o644
  ∧ ComputeNewMode 0o1644 CHMOD_WHO_ALL CHMOD_OP_PLUS CHMOD_PERM_LX CHMOD_WHO_NONE =
      0o1755 :=
  ⟨claim_C5.2.1 0o644 CHMOD_WHO_ALL (by decide) (by decide),
   (claim_C5.2.2 0o1644 CHMOD_WHO_ALL (by decide)).trans (by decide)⟩

/-- Claim C6. At the END state of the symbolic parser, reading another operator
character finalizes the current action (defaulting an empty who set to all) onto the
end of the output list and re-enters the machine at the WHO state with the same
character and with the next action inheriting the just-finalized who set; every
successful run extends the accumulated list by a nonempty suffix, so finalized
clauses are appended in source order, as the concrete parses of u+r-w, +r and
u+r,g-w show. -/
theorem claim_C6 :
    (∀ (fuel : Nat) (cs : List Char) (a : MODE_CHANGE_ACTION)
        (acc : List MODE_CHANGE_ACTION) (c : Char), c = '+' ∨ c = '-' ∨ c = '=' →
      parseModeLoop (fuel + 1) (c :: cs) ParseModeActionState.END a acc =
        parseModeLoop fuel (c :: cs) ParseModeActionState.WHO
          { INIT_MODE_CHANGE_ACTION with who := (endFinalize a).who }
          (acc ++ [endFinalize a]))
  ∧ (∀ a, a.who = CHMOD_WHO_NONE → (endFinalize a).who = CHMOD_WHO_ALL)
  ∧ (∀ a, a.who ≠ CHMOD_WHO_NONE → endFinalize a = a)
  ∧ (∀ fuel cs st a acc out, parseModeLoop fuel cs st a acc = some out →
      ∃ t, t ≠ [] ∧ out = acc ++ t)
  ∧ ParseMode "u+r-w" =
      some [⟨CHMOD_WHO_USER, CHMOD_OP_PLUS, CHMOD_PERM_R, CHMOD_WHO_NONE⟩,
        ⟨CHMOD_WHO_USER, CHMOD_OP_MINUS, CHMOD_PERM_W, CHMOD_WHO_NONE⟩]
  ∧ ParseMode "+r" = some [⟨CHMOD_WHO_ALL, CHMOD_OP_PLUS, CHMOD_PERM_R, CHMOD_WHO_NONE⟩]
  ∧ ParseMode "u+r,g-w" =
      some [⟨CHMOD_WHO_USER, CHMOD_OP_PLUS, CHMOD_PERM_R, CHMOD_WHO_NONE⟩,
        ⟨CHMOD_WHO_GROUP, CHMOD_OP_MINUS, CHMOD_PERM_W, CHMOD_WHO_NONE⟩] := by
  refine ⟨?_, ?_, ?_, parseModeLoop_append, by decide, by decide, by decide⟩
  · intro fuel cs a acc c hc
    rcases hc with rfl | rfl | rfl <;> rfl
  · intro a h
    simp [endFinalize, h]
  · intro a h
    simp [endFinalize, h]

/-- Witness for claim C6 at concrete inputs: the END step on the remaining input +r,
the who defaulting on the initial action, finalization leaving a nonempty who
untouched, and the nonempty append property at the parse of +r. -/
theorem claim_C6_witness :
    parseModeLoop 7 ['+', 'r'] ParseModeActionState.END INIT_MODE_CHANGE_ACTION [] =
      parseModeLoop 6 ['+', 'r'] ParseModeActionState.WHO
        { INIT_MODE_CHANGE_ACTION with who := (endFinalize INIT_MODE_CHANGE_ACTION).who }
        ([] ++ [endFinalize INIT_MODE_CHANGE_ACTION])
  ∧ (endFinalize INIT_MODE_CHANGE_ACTION).who = CHMOD_WHO_ALL
  ∧ endFinalize ⟨CHMOD_WHO_USER, CHMOD_OP_PLUS, CHMOD_PERM_R, CHMOD_WHO_NONE⟩ =
      ⟨CHMOD_WHO_USER, CHMOD_OP_PLUS, CHMOD_PERM_R, CHMOD_WHO_NONE⟩
  ∧ (∃ t, t ≠ [] ∧
      [(⟨CHMOD_WHO_ALL, CHMOD_OP_PLUS, CHMOD_PERM_R, CHMOD_WHO_NONE⟩ :
        MODE_CHANGE_ACTION)] = [] ++ t) :=
  ⟨claim_C6.1 6 ['r'] INIT_MODE_CHANGE_ACTION [] '+' (Or.inl rfl),
   claim_C6.2.1 INIT_MODE_CHANGE_ACTION rfl,
   claim_C6.2.2.1 ⟨CHMOD_WHO_USER, CHMOD_OP_PLUS, CHMOD_PERM_R, CHMOD_WHO_NONE⟩ (by decide),
   claim_C6.2.2.2.1 8 ['+', 'r'] ParseModeActionState.WHO INIT_MODE_CHANGE_ACTION []
     [⟨CHMOD_WHO_ALL, CHMOD_OP_PLUS, CHMOD_PERM_R, CHMOD_WHO_NONE⟩] (by decide)⟩

end WinutilsChmod

namespace WinutilsChmod

theorem octalValueAux_lt :
    ∀ (cs : List Char) (acc : Nat), (∀ c ∈ cs, isOctalDigit c = true) →
      octalValueAux cs acc < (acc + 1) * 8 ^ cs.length := by
  intro cs
  induction cs with
  | nil =>
    intro acc _
    simp only [octalValueAux, List.length_nil, pow_zero, mul_one]
    omega
  | cons c cs ih =>
    intro acc hall
    have hc := hall c (List.mem_cons_self c cs)
    have hd : c.toNat - 48 ≤ 7 := by
      simp only [isOctalDigit, Bool.and_eq_true, decide_eq_true_eq] at hc
      omega
    have h1 := ih (8 * acc + (c.toNat - 48))
      (fun x hx => hall x (List.mem_cons_of_mem _ hx))
    have h2 : (8 * acc + (c.toNat - 48) + 1) * 8 ^ cs.length ≤
        ((acc + 1) * 8) * 8 ^ cs.length :=
      Nat.mul_le_mul_right _ (by omega)
    have h3 : ((acc + 1) * 8) * 8 ^ cs.length = (acc + 1) * 8 ^ (cs.length + 1) := by
      ring
    show octalValueAux (c :: cs) acc < (acc + 1) * 8 ^ (c :: cs).length
    simp only [octalValueAux, List.length_cons]
    rw [← h3]
    exact lt_of_lt_of_le h1 h2

theorem octalStringValue_le (cs : List Char) (h3 : cs.length = 3)
    (hall : ∀ c ∈ cs, isOctalDigit c = true) : octalStringValue cs ≤ 0x777 := by
  have h := octalValueAux_lt cs 0 hall
  rw [h3] at h
  simp only [octalStringValue]
  omega

/-- Claim C4. ParseOctalMode succeeds exactly on the strings of length 3 or 4 whose
characters are all octal digits (the range check against 0x777 never rejects such a
string); a valid length-3 string parses to its octal value and a length-4 string to
the octal value of its last three digits; when the octal parse fails the combined
mode resolution falls over to the symbolic parse, and fails (MalformedMode) exactly
when that also fails; a successful symbolic parse yields a nonempty action list. -/
theorem claim_C4 :
    (∀ s : String, (ParseOctalMode s).isSome = true ↔
      ((s.data.length = 3 ∨ s.data.length = 4) ∧ s.data.all isOctalDigit = true))
  ∧ (∀ s : String, s.data.length = 3 → s.data.all isOctalDigit = true →
      ParseOctalMode s = some (octalStringValue s.data))
  ∧ (∀ s : String, s.data.length = 4 → s.data.all isOctalDigit = true →
      ParseOctalMode s = some (octalStringValue s.data.tail))
  ∧ (∀ s : String, ParseOctalMode s = none →
      ParseChmodMask s = (ParseMode s).map Sum.inr)
  ∧ (∀ s : String, ParseOctalMode s = none → ParseMode s = none → ParseChmodMask s = none)
  ∧ (∀ (s : String) (acts : List MODE_CHANGE_ACTION),
      ParseMode s = some acts → acts ≠ []) := by
  have hval : ∀ s : String, (s.data.length = 3 ∨ s.data.length = 4) →
      s.data.all isOctalDigit = true →
      ParseOctalMode s =
        some (if s.data.length = 4 then octalStringValue s.data.tail
          else octalStringValue s.data) := by
    intro s hlen hall
    have hall2 := List.all_eq_true.1 hall
    have hb : (if s.data.length = 4 then octalStringValue s.data.tail
        else octalStringValue s.data) ≤ 0x777 := by
      rcases eq_or_ne s.data.length 4 with h4 | h4
      · rw [if_pos h4]
        refine octalStringValue_le _ ?_ ?_
        · rw [List.length_tail, h4]
        · intro c hc
          exact hall2 c (List.mem_of_mem_tail hc)
      · rw [if_neg h4]
        exact octalStringValue_le _ (hlen.resolve_right h4) hall2
    simp only [ParseOctalMode]
    rw [if_pos hlen, if_pos hall, if_pos hb]
  refine ⟨?_, ?_, ?_, ?_, ?_, ?_⟩
  · intro s
    constructor
    · intro h
      simp only [ParseOctalMode] at h
      by_cases hlen : s.data.length = 3 ∨ s.data.length = 4
      · by_cases hall : s.data.all isOctalDigit = true
        · exact ⟨hlen, hall⟩
        · rw [if_pos hlen, if_neg hall] at h
          simp at h
      · rw [if_neg hlen] at h
        simp at h
    · intro ⟨hlen, hall⟩
      rw [hval s hlen hall]
      rfl
  · intro s h3 hall
    have h := hval s (Or.inl h3) hall
    rw [if_neg (by omega)] at h
    exact h
  · intro s h4 hall
    have h := hval s (Or.inr h4) hall
    rw [if_pos h4] at h
    exact h
  · intro s h
    simp only [ParseChmodMask, h]
    cases hm : ParseMode s <;> rfl
  · intro s h hm
    simp only [ParseChmodMask, h, hm]
  · intro s acts h
    obtain ⟨t, ht, rfl⟩ := parseModeLoop_append _ _ _ _ _ _ h
    simpa using ht

/-- Witness for claim C4 at concrete strings: 755 and 0755 parse to octal mask 0755,
zzz fails both grammars, and the parse of u+r is nonempty. -/
theorem claim_C4_witness :
    ParseOctalMode "755" = some 0o755
  ∧ ParseOctalMode "0755" = some 0o755
  ∧ ParseChmodMask "zzz" = none
  ∧ [(⟨CHMOD_WHO_USER, CHMOD_OP_PLUS, CHMOD_PERM_R, CHMOD_WHO_NONE⟩ :
      MODE_CHANGE_ACTION)] ≠ [] :=
  ⟨(claim_C4.2.1 "755" (by decide) (by decide)).trans (by decide),
   (claim_C4.2.2.1 "0755" (by decide) (by decide)).trans (by decide),
   claim_C4.2.2.2.2.1 "zzz" (by decide) (by decide),
   claim_C4.2.2.2.2.2 "u+r"
     [⟨CHMOD_WHO_USER, CHMOD_OP_PLUS, CHMOD_PERM_R, CHMOD_WHO_NONE⟩] (by decide)⟩

end WinutilsChmod

namespace WinutilsChmod

/-- Counterexample to claim C8 as stated: for the recursive invocation with the
malformed mode string zzz, argument parsing performs the native
GetFileInformationByName metadata query on the path before the mode string is
parsed, so the pre-parse native-call list is not empty. -/
theorem claim_C8_counterexample :
    ParseChmodMask "zzz" = none
  ∧ ParseCommandLineArguments ["chmod", "-R", "zzz", "d"] (fun _ => some true) =
      ([NativeCall.getFileInformationByName "d"], none)
  ∧ [NativeCall.getFileInformationByName "d"] ≠ ([] : List NativeCall) := by
  decide

/-- Claim C8 as amended.  For a malformed mode string the failure is reported
immediately and no security or long-path native call is attempted: in the
non-recursive three-argument form no native call at all precedes the failure, while
in the recursive form exactly the one GetFileInformationByName metadata query on the
path (used to decide recursion) precedes the mode parse, and the run still stops
before ConvertToLongPath and all security work. -/
theorem claim_C8 :
    (∀ (prog m p : String) (fsIsDir : String → Option Bool), ParseChmodMask m = none →
      ChmodMain [prog, m, p] fsIsDir = ([], false))
  ∧ (∀ (prog m p : String) (fsIsDir : String → Option Bool) (d : Bool),
      fsIsDir p = some d → ParseChmodMask m = none →
      ChmodMain [prog, "-R", m, p] fsIsDir =
        ([NativeCall.getFileInformationByName p], false)) := by
  constructor
  · intro prog m p fsIsDir h
    simp only [ChmodMain, ParseCommandLineArguments, h]
  · intro prog m p fsIsDir d hf h
    simp only [ChmodMain, ParseCommandLineArguments, hf, h]
    rfl

/-- Witness for claim C8 at the malformed mode string zzz in both argument forms. -/
theorem claim_C8_witness :
    ChmodMain ["chmod", "zzz", "d"] (fun _ => none) = ([], false)
  ∧ ChmodMain ["chmod", "-R", "zzz", "d"] (fun _ => some true) =
      ([NativeCall.getFileInformationByName "d"], false) :=
  ⟨claim_C8.1 "chmod" "zzz" "d" (fun _ => none) (by decide),
   claim_C8.2 "chmod" "zzz" "d" (fun _ => some true) true rfl (by decide)⟩

mutual
theorem walk_trace_ge (ok : String → Bool) (p : String) (n : FSNode) :
    ∀ t b, ChangeFileModeRecursively ok p n = (t, b) → ∀ s ∈ t, p.length ≤ s.length := by
  cases n with
  | file nm =>
    intro t b h s hs
    simp only [ChangeFileModeRecursively] at h
    rw [Prod.mk.injEq] at h
    obtain ⟨rfl, rfl⟩ := h
    simp at hs
    subst hs
    exact le_refl _
  | dir nm es =>
    intro t b h s hs
    simp only [ChangeFileModeRecursively] at h
    rcases hk : changeChildrenModes ok p es with ⟨tk, bk⟩
    rw [hk] at h
    cases bk with
    | false =>
      rw [Prod.mk.injEq] at h
      obtain ⟨rfl, rfl⟩ := h
      exact le_of_lt (walk_kids_trace_gt ok p es _ _ hk s hs)
    | true =>
      rw [Prod.mk.injEq] at h
      obtain ⟨rfl, rfl⟩ := h
      rcases List.mem_append.1 hs with h1 | h2
      · exact le_of_lt (walk_kids_trace_gt ok p es _ _ hk s h1)
      · simp at h2
        subst h2
        exact le_refl _
theorem walk_kids_trace_gt (ok : String → Bool) (p : String) (l : FSList) :
    ∀ t b, changeChildrenModes ok p l = (t, b) → ∀ s ∈ t, p.length < s.length := by
  cases l with
  | nil =>
    intro t b h s hs
    simp only [changeChildrenModes] at h
    rw [Prod.mk.injEq] at h
    obtain ⟨rfl, rfl⟩ := h
    simp at hs
  | cons c cs =>
    intro t b h s hs
    simp only [changeChildrenModes] at h
    split at h
    · exact walk_kids_trace_gt ok p cs _ _ h s hs
    · rcases hc : ChangeFileModeRecursively ok (p ++ "\\" ++ nodeName c) c with ⟨tc, bc⟩
      rw [hc] at h
      cases bc with
      | false =>
        rw [Prod.mk.injEq] at h
        obtain ⟨rfl, rfl⟩ := h
        have h1 := walk_trace_ge ok (p ++ "\\" ++ nodeName c) c _ _ hc s hs
        have h2 := childPath_length p (nodeName c)
        omega
      | true =>
        rcases hk : changeChildrenModes ok p cs with ⟨tk, bk⟩
        rw [hk] at h
        rw [Prod.mk.injEq] at h
        obtain ⟨rfl, rfl⟩ := h
        rcases List.mem_append.1 hs with h1 | h2
        · have h3 := walk_trace_ge ok (p ++ "\\" ++ nodeName c) c _ _ hc s h1
          have h4 := childPath_length p (nodeName c)
          omega
        · exact walk_kids_trace_gt ok p cs _ _ hk s h2
end

/-- Claim C9. The recursive walk on a directory containing the two pseudo-entries, a
file and an empty subdirectory applies the change to the file and the subdirectory
and only then to the directory itself; in general, on a directory the children run
first and the directory path is applied last exactly when all children succeeded,
while a failing child ends the walk with the parent path never applied; a
non-pseudo child whose subtree fails ends the child loop at once (later siblings are
not visited), and a failure in later siblings keeps the earlier successful
applications in the trace (no rollback). -/
theorem claim_C9 :
    ChangeFileModeRecursively (fun _ => true) "d"
      (FSNode.dir "top" (FSList.cons (FSNode.file ".") (FSList.cons (FSNode.file "..")
        (FSList.cons (FSNode.file "f") (FSList.cons (FSNode.dir "s" FSList.nil)
          FSList.nil)))))
      = (["d\\f", "d\\s", "d"], true)
  ∧ (∀ (ok : String → Bool) (p nm : String) (es : FSList) (t : List String) (b : Bool),
      ChangeFileModeRecursively ok p (FSNode.dir nm es) = (t, b) →
      (∃ tc, changeChildrenModes ok p es = (tc, true) ∧ t = tc ++ [p] ∧ b = ok p) ∨
      (∃ tc, changeChildrenModes ok p es = (tc, false) ∧ t = tc ∧ b = false ∧ p ∉ tc))
  ∧ (∀ (ok : String → Bool) (p : String) (c : FSNode) (cs : FSList) (tc : List String),
      ¬(nodeName c = "." ∨ nodeName c = "..") →
      ChangeFileModeRecursively ok (p ++ "\\" ++ nodeName c) c = (tc, false) →
      changeChildrenModes ok p (FSList.cons c cs) = (tc, false))
  ∧ (∀ (ok : String → Bool) (p : String) (c : FSNode) (cs : FSList)
        (tc t2 : List String),
      ¬(nodeName c = "." ∨ nodeName c = "..") →
      ChangeFileModeRecursively ok (p ++ "\\" ++ nodeName c) c = (tc, true) →
      changeChildrenModes ok p cs = (t2, false) →
      changeChildrenModes ok p (FSList.cons c cs) = (tc ++ t2, false)) := by
  refine ⟨by decide, ?_, ?_, ?_⟩
  · intro ok p nm es t b h
    simp only [ChangeFileModeRecursively] at h
    rcases hk : changeChildrenModes ok p es with ⟨tk, bk⟩
    rw [hk] at h
    cases bk with
    | true =>
      rw [Prod.mk.injEq] at h
      obtain ⟨rfl, rfl⟩ := h
      exact Or.inl ⟨tk, rfl, rfl, rfl⟩
    | false =>
      rw [Prod.mk.injEq] at h
      obtain ⟨rfl, rfl⟩ := h
      refine Or.inr ⟨tk, rfl, rfl, rfl, fun hp => ?_⟩
      have := walk_kids_trace_gt ok p es _ _ hk p hp
      omega
  · intro ok p c cs tc hps hc
    simp only [changeChildrenModes]
    rw [if_neg hps, hc]
  · intro ok p c cs tc t2 hps hc hk
    simp only [changeChildrenModes]
    rw [if_neg hps, hc, hk]

/-- Witness for claim C9: a walk in which every apply fails, on a directory with one
file child, never applies to the directory itself; a failing child ends the loop;
and an earlier successful sibling stays in the trace when a later one fails. -/
theorem claim_C9_witness :
    ((∃ tc, changeChildrenModes (fun _ => false) "d"
        (FSList.cons (FSNode.file "f") FSList.nil) = (tc, true) ∧
        ["d\\f"] = tc ++ ["d"] ∧ false = (fun (_ : String) => false) "d") ∨
     (∃ tc, changeChildrenModes (fun _ => false) "d"
        (FSList.cons (FSNode.file "f") FSList.nil) = (tc, false) ∧
        ["d\\f"] = tc ∧ false = false ∧ "d" ∉ tc))
  ∧ changeChildrenModes (fun _ => false) "d"
      (FSList.cons (FSNode.file "f") FSList.nil) = (["d\\f"], false)
  ∧ changeChildrenModes (fun s => s = "d\\f") "d"
      (FSList.cons (FSNode.file "f") (FSList.cons (FSNode.file "g") FSList.nil)) =
      (["d\\f"] ++ ["d\\g"], false) :=
  ⟨claim_C9.2.1 (fun _ => false) "d" "top" (FSList.cons (FSNode.file "f") FSList.nil)
      ["d\\f"] false (by decide),
   claim_C9.2.2.1 (fun _ => false) "d" (FSNode.file "f") FSList.nil ["d\\f"]
      (by decide) (by decide),
   claim_C9.2.2.2 (fun s => s = "d\\f") "d" (FSNode.file "f")
      (FSList.cons (FSNode.file "g") FSList.nil) ["d\\f"] ["d\\g"]
      (by decide) (by decide) (by decide)⟩

end WinutilsChmod

namespace WinutilsChmod

/-- Claim C7. For every 9-bit mask the synthesized DACL satisfies the deny-entry law
(a deny for a right exists for the owner or group principal exactly when that class
lacks the right and a broader class possesses it), the Everyone principal has only
an allow entry, and the entry order is owner deny (present exactly when some right
is denied to the owner), owner allow, group deny (likewise), group allow, Everyone
allow. -/
theorem claim_C7 (m : Nat) (hm : m < 0o1000) :
    ((∀ r : UnixRight, DaclDenies m AcePrincipal.owner r ↔
        (¬ HasUnixRight m PermClass.owner r ∧
          ∃ c ∈ broaderClasses PermClass.owner, HasUnixRight m c r))
  ∧ (∀ r : UnixRight, DaclDenies m AcePrincipal.group r ↔
        (¬ HasUnixRight m PermClass.group r ∧
          ∃ c ∈ broaderClasses PermClass.group, HasUnixRight m c r))
  ∧ (∀ e ∈ GetWindowsDACLs m, e.sid = AcePrincipal.everyone →
        e.kind = AceKind.accessAllowed)
  ∧ ((GetWindowsDACLs m).map (fun e => (e.kind, e.sid)) =
      (if ∃ r : UnixRight, DaclDenies m AcePrincipal.owner r
        then [(AceKind.accessDenied, AcePrincipal.owner)] else []) ++
      [(AceKind.accessAllowed, AcePrincipal.owner)] ++
      (if ∃ r : UnixRight, DaclDenies m AcePrincipal.group r
        then [(AceKind.accessDenied, AcePrincipal.group)] else []) ++
      [(AceKind.accessAllowed, AcePrincipal.group)] ++
      [(AceKind.accessAllowed, AcePrincipal.everyone)])) := by
  revert m hm
  set_option maxRecDepth 8000 in
  set_option maxHeartbeats 4000000 in
  decide

/-- Witness for claim C7 at the spec example mask 0640: neither the owner nor the
group receives a deny entry, and the DACL is owner allow, group allow, Everyone
allow. -/
theorem claim_C7_witness :
    (GetWindowsDACLs 0o640).map (fun e => (e.kind, e.sid)) =
      [(AceKind.accessAllowed, AcePrincipal.owner),
       (AceKind.accessAllowed, AcePrincipal.group),
       (AceKind.accessAllowed, AcePrincipal.everyone)] :=
  ((claim_C7 0o640 (by decide)).2.2.2).trans (by decide)

end WinutilsChmod
